import Mathlib

/-!
Shallow embedding of the document-analysis front end
(`src/components/insights-panel.tsx` and `src/components/pdf-viewer.tsx`).

JavaScript `number` arithmetic is idealised as exact real arithmetic (`ℝ`);
`Math.sqrt` is `Real.sqrt`, `Math.min`/`Math.max` are `min`/`max`.
JavaScript strings are Lean `String`s, with trimming and substring search
implemented over `String.data` so that concrete instances reduce.
Asynchronous effects (fetch/setState/toast) are made explicit: each handler
is a pure function from its inputs (including the outcome of the network
call and, where the source calls `Math.random()`, an explicit stream of
random draws) to the resulting component state.
-/

/-- JavaScript `a || b` on numbers that are known to be non-`NaN`:
the left operand is replaced by the right one exactly when it is `0`
(the only falsy non-`NaN` number). -/
noncomputable def jsOr (x d : ℝ) : ℝ := if x = 0 then d else x

/-- JavaScript `a || b` where `a` is an optional string field:
`undefined` and the empty string are falsy. -/
def jsOrS (x : Option String) (d : String) : String :=
  match x with
  | none => d
  | some s => if s = "" then d else s

/-- JavaScript `a || b` where `a` is an optional numeric field:
`undefined` and `0` are falsy. -/
noncomputable def jsOrN (x : Option ℝ) (d : ℝ) : ℝ :=
  match x with
  | none => d
  | some v => if v = 0 then d else v

/-- Substring search worker: does `pat` occur as a prefix of some suffix? -/
def goContains (pat : List Char) : List Char → Bool
  | [] => pat.isPrefixOf []
  | c :: t => pat.isPrefixOf (c :: t) || goContains pat t

/-- JavaScript `s.includes(pat)`. -/
def strContains (s pat : String) : Bool := goContains pat.data s.data

/-- JavaScript `s.trim()`: strip leading and trailing whitespace. -/
def jsTrim (s : String) : String :=
  ⟨((s.data.dropWhile Char.isWhitespace).reverse.dropWhile Char.isWhitespace).reverse⟩

/-- A toast notification as issued through `useToast`. -/
structure Toast where
  title : String
  description : String
  variant : String
deriving DecidableEq

namespace DocumentUpload

/-- A browser `File`: name, byte size and declared media type. -/
structure JsFile where
  name : String
  size : Nat
  type : String
deriving DecidableEq

/-- Status of an `UploadedDocument` (insights-panel.tsx lines 837-841). -/
inductive DocStatus
  | uploading
  | success
  | error
deriving DecidableEq

/-- An entry of the pending-file list (insights-panel.tsx lines 837-841). -/
structure UploadedDocument where
  name : String
  size : Nat
  status : DocStatus
deriving DecidableEq

/-- Result of `handleFiles` (insights-panel.tsx lines 885-915): the toasts
issued, the new pending-file list (`none` when `setFiles` is not called),
and the batch passed on to `uploadFiles` (`none` when no upload starts). -/
structure HandleFilesResult where
  toasts : List Toast
  newFiles : Option (List UploadedDocument)
  uploadRequest : Option (List JsFile)
deriving DecidableEq

/-- Transcription of `handleFiles` (insights-panel.tsx lines 885-915). -/
def handleFiles (selectedFiles : List JsFile) : HandleFilesResult :=
  let pdfFiles := selectedFiles.filter (fun f => f.type = "application/pdf")
  let toasts0 :=
    if pdfFiles.length ≠ selectedFiles.length then
      [⟨"Invalid files detected",
        "Only PDF files are supported. Non-PDF files have been filtered out.",
        "destructive"⟩]
    else []
  if pdfFiles.length = 0 then
    { toasts := toasts0 ++ [⟨"No valid files", "Please select PDF files to upload.", "destructive"⟩],
      newFiles := none,
      uploadRequest := none }
  else
    { toasts := toasts0,
      newFiles := some (pdfFiles.map (fun f => ⟨f.name, f.size, DocStatus.uploading⟩)),
      uploadRequest := some pdfFiles }

/-- The JSON body a successful upload response parses to
(`cluster_id`, `processed_files_count`). -/
structure UploadResultJson where
  cluster_id : String
  processed_files_count : Nat
deriving DecidableEq

/-- The observable outcome of `fetch` inside `uploadFiles`: either the
promise rejects with an error message, or a response arrives with its
`ok` flag, `statusText`, `content-type` header, raw body text, and the
JSON value `response.json()` would produce. -/
inductive FetchResult
  | failure (message : String)
  | response (ok : Bool) (statusText : String) (contentType : Option String)
      (bodyText : String) (json : UploadResultJson)
deriving DecidableEq

/-- The HTML sniff on a non-JSON body (insights-panel.tsx lines 958-962). -/
def htmlCheck (bodyText : String) : Except String UploadResultJson :=
  if strContains bodyText "<!DOCTYPE" || strContains bodyText "<html" then
    Except.error "API_NOT_AVAILABLE"
  else
    Except.error "Server returned non-JSON response"

/-- The inner `try` of `uploadFiles` (insights-panel.tsx lines 941-965):
fetch, the `response.ok` check, the content-type check and JSON parse.
`Except.error m` models a thrown `Error` with message `m`. -/
def innerTry (fr : FetchResult) : Except String UploadResultJson :=
  match fr with
  | FetchResult.failure m => Except.error m
  | FetchResult.response ok statusText contentType bodyText json =>
    if ¬ ok then Except.error ("Upload failed: " ++ statusText)
    else
      match contentType with
      | none => htmlCheck bodyText
      | some ct =>
        if ¬ strContains ct "application/json" then htmlCheck bodyText
        else Except.ok json

/-- The demo-mode detection in the inner `catch`
(insights-panel.tsx lines 970-975). -/
def demoCheck (m : String) : Bool :=
  strContains m "API_NOT_AVAILABLE" || strContains m "Failed to fetch" ||
    strContains m "NetworkError"

/-- The inner `catch` of `uploadFiles` (insights-panel.tsx lines 966-993):
a recognised unavailability error is converted into a mock successful
result (demo mode); every other error is rethrown. -/
def withDemo (files : List JsFile) (now : String)
    (e : Except String UploadResultJson) : Except String UploadResultJson :=
  match e with
  | Except.ok r => Except.ok r
  | Except.error m =>
    if demoCheck m then
      Except.ok ⟨"demo_cluster_" ++ now, files.length⟩
    else Except.error m

/-- Final state produced by `uploadFiles`: the uniform status every file of
the batch is mapped to, the `error` state, the toasts issued after the
response settles, and the `onUploadComplete` notification (cluster id and
file names), `none` when the upload failed. -/
structure UploadOutcome where
  fileStatus : DocStatus
  error : Option String
  toasts : List Toast
  completed : Option (String × List String)
deriving DecidableEq

/-- Transcription of `uploadFiles` (insights-panel.tsx lines 917-1023),
with the synthetic progress timer elided (it touches only the progress
percentage). `now` stands for `Date.now()` rendered as a string. -/
def uploadFiles (files : List JsFile) (fr : FetchResult) (now : String) : UploadOutcome :=
  match withDemo files now (innerTry fr) with
  | Except.ok result =>
    { fileStatus := DocStatus.success,
      error := none,
      toasts := [⟨"Upload successful",
        toString result.processed_files_count ++ " documents uploaded successfully.", "default"⟩],
      completed := some (result.cluster_id, files.map (fun f => f.name)) }
  | Except.error m =>
    { fileStatus := DocStatus.error,
      error := some m,
      toasts := [⟨"Upload failed", m, "destructive"⟩],
      completed := none }

end DocumentUpload

namespace PdfViewer

/-- A viewer event as delivered to the registered callback
(pdf-viewer.tsx lines 198-210): its `type` and the optional
`event.data?.selection?.text` payload (`none` when any link of the
optional chain is absent). -/
structure ViewerEvent where
  type : String
  text : Option String
deriving DecidableEq

/-- Transcription of the event-listener callback registered in
`initializePDFViewer` (pdf-viewer.tsx lines 198-210): returns the
`(selectedText, documentName)` pair passed to `onTextSelection`, or
`none` when the callback does not fire it. The guard
`event.data?.selection?.text` is truthy exactly when the payload is
present and non-empty. -/
def handleViewerEvent (documentName : String) (event : ViewerEvent) :
    Option (String × String) :=
  if event.type = "SELECTION_END" then
    match event.text with
    | none => none
    | some t =>
      if t ≠ "" then
        let selectedText := jsTrim t
        if selectedText ≠ "" then some (selectedText, documentName) else none
      else none
  else none

end PdfViewer

namespace KnowledgeGraph

noncomputable section

/-- A graph node (insights-panel.tsx lines 1146-1156). After
normalisation by `fetchGraphData` every field is present, so the
optional fields of the TypeScript interface are total here; `simulate`
reads them only through `(… || 0)`, which is the identity on a present
number (`0 || 0 = 0`). -/
@[ext] structure Node where
  id : String
  label : String
  size : ℝ
  color : String
  x : ℝ
  y : ℝ
  vx : ℝ
  vy : ℝ

/-- A graph link (insights-panel.tsx lines 1158-1163); after
normalisation `source` and `target` are node-id strings and `weight`
and `label` are present. -/
@[ext] structure Link where
  source : String
  target : String
  weight : ℝ
  label : String

/-- The graph state (insights-panel.tsx lines 1165-1168). -/
@[ext] structure GraphData where
  nodes : List Node
  links : List Link

/-- Canvas center x-coordinate (insights-panel.tsx line 1279). -/
def centerX : ℝ := 300

/-- Canvas center y-coordinate (insights-panel.tsx line 1280). -/
def centerY : ℝ := 200

/-- Centering force factor (insights-panel.tsx line 1281). -/
def centerForce : ℝ := 0.01

/-- The repulsion contribution of `other` to the velocity of `node`
(insights-panel.tsx lines 1288-1293), with the treatment of the raw
Euclidean distance abstracted into `dfix` (`Math.sqrt(…) || 1` in the
source). -/
def repTerm (dfix : ℝ → ℝ) (node other : Node) : ℝ × ℝ :=
  let dx := node.x - other.x
  let dy := node.y - other.y
  let distance := dfix (Real.sqrt (dx * dx + dy * dy))
  let force := 500 / (distance * distance)
  (dx / distance * force, dy / distance * force)

/-- The source's distance treatment: `Math.sqrt(…) || 1` replaces a zero
distance by 1 and keeps every other value. -/
def codeDist (d : ℝ) : ℝ := jsOr d 1

/-- The distance treatment the specification describes: "minimum 1 to
avoid division by zero". -/
def specDist (d : ℝ) : ℝ := max d 1

/-- The first per-node loop of `simulate` (insights-panel.tsx lines
1277-1296): centering force, then accumulation of the repulsion terms
against every other node (by id) in array order. Only velocities are
written and only positions are read, so iterating over the snapshot is
faithful to the in-place loop. -/
def applyNodeForces (nodes : List Node) : List Node :=
  nodes.map (fun node =>
    let vx0 := node.vx + (centerX - node.x) * centerForce
    let vy0 := node.vy + (centerY - node.y) * centerForce
    let v := nodes.foldl
      (fun v other => if node.id ≠ other.id then v + repTerm codeDist node other else v)
      (vx0, vy0)
    { node with vx := v.1, vy := v.2 })

/-- The spring contribution of one link (insights-panel.tsx lines
1304-1311), computed from the resolved `source` and `target` nodes. -/
def springTerm (source target : Node) : ℝ × ℝ :=
  let dx := target.x - source.x
  let dy := target.y - source.y
  let distance := jsOr (Real.sqrt (dx * dx + dy * dy)) 1
  let targetDistance : ℝ := 100
  let force := (distance - targetDistance) * 0.1
  (dx / distance * force, dy / distance * force)

/-- Mutation of the first node carrying a given id, as performed through
the object references returned by `Array.prototype.find`. -/
def updateFirst (ns : List Node) (nid : String) (f : Node → Node) : List Node :=
  match ns with
  | [] => []
  | n :: rest => if n.id = nid then f n :: rest else n :: updateFirst rest nid f

/-- One iteration of the link loop of `simulate` (insights-panel.tsx
lines 1299-1318): if both endpoints resolve, add the spring term to the
source's velocity and subtract it from the target's; otherwise do
nothing. -/
def applyLink (ns : List Node) (link : Link) : List Node :=
  match ns.find? (fun n => n.id == link.source), ns.find? (fun n => n.id == link.target) with
  | some source, some target =>
    let f := springTerm source target
    let ns1 := updateFirst ns link.source (fun n => { n with vx := n.vx + f.1, vy := n.vy + f.2 })
    updateFirst ns1 link.target (fun n => { n with vx := n.vx - f.1, vy := n.vy - f.2 })
  | _, _ => ns

/-- The link loop of `simulate` (insights-panel.tsx lines 1299-1318). -/
def applyLinkForces (ns : List Node) (links : List Link) : List Node :=
  links.foldl applyLink ns

/-- The final per-node loop of `simulate` (insights-panel.tsx lines
1321-1330): damping, integration, and the bounds clamp. -/
def integrate (node : Node) : Node :=
  let vx := node.vx * 0.9
  let vy := node.vy * 0.9
  let x := node.x + vx
  let y := node.y + vy
  { node with vx := vx, vy := vy,
              x := max 20 (min 580 x),
              y := max 20 (min 380 y) }

/-- One tick of the force simulation: transcription of the `simulate`
callback body (insights-panel.tsx lines 1269-1333). The returned state
keeps the link list (`return ... prevData, nodes ...`). -/
def simulate (g : GraphData) : GraphData :=
  { g with nodes := (applyLinkForces (applyNodeForces g.nodes) g.links).map integrate }

/-- The centering-force increment of one node's velocity. -/
def centerNode (node : Node) : Node :=
  { node with vx := node.vx + (centerX - node.x) * centerForce,
              vy := node.vy + (centerY - node.y) * centerForce }

/-- Phase 1 of the specification's five-step update: every node's
velocity is incremented by the centering force. -/
def centerPhase (ns : List Node) : List Node := ns.map centerNode

/-- Sum of the repulsion contributions of all other nodes to `node`. -/
def repSum (dfix : ℝ → ℝ) (ns : List Node) (node : Node) : ℝ × ℝ :=
  ns.foldl (fun v other => if node.id ≠ other.id then v + repTerm dfix node other else v) (0, 0)

/-- The repulsion increment of one node's velocity. -/
def repulseNode (dfix : ℝ → ℝ) (ns : List Node) (node : Node) : Node :=
  { node with vx := node.vx + (repSum dfix ns node).1,
              vy := node.vy + (repSum dfix ns node).2 }

/-- Phase 2 of the specification's five-step update: every node's
velocity is incremented by the repulsive force of every other node. -/
def repulsePhase (dfix : ℝ → ℝ) (ns : List Node) : List Node :=
  ns.map (repulseNode dfix ns)

/-- The specification's five-step tick, with the repulsion distance
treatment as a parameter: centering phase, then pairwise repulsion,
then link springs (split equally and oppositely between the two resolved
endpoints), then damping, integration and the bounds clamp. -/
def phasedTick (dfix : ℝ → ℝ) (g : GraphData) : GraphData :=
  { g with nodes :=
      (applyLinkForces (repulsePhase dfix (centerPhase g.nodes)) g.links).map integrate }

/-- The five-step update exactly as the claim states it: the repulsion
distance is taken with a minimum of 1. -/
def specTick (g : GraphData) : GraphData := phasedTick specDist g

/-- The five-step update as amended: only a repulsion distance of
exactly 0 is replaced by 1 (the JavaScript `|| 1`). -/
def codeTick (g : GraphData) : GraphData := phasedTick codeDist g

/-- Rendering of one link (insights-panel.tsx lines 1445-1464): the line
segment endpoints, or `none` (the early `return null`) when either
endpoint does not resolve. -/
def renderLink (g : GraphData) (link : Link) : Option (ℝ × ℝ × ℝ × ℝ) :=
  match g.nodes.find? (fun n => n.id == link.source), g.nodes.find? (fun n => n.id == link.target) with
  | some source, some target => some (source.x, source.y, target.x, target.y)
  | _, _ => none

/-- The rendered link layer (insights-panel.tsx lines 1444-1466); React
drops the `null` entries. -/
def renderLinks (g : GraphData) : List (ℝ × ℝ × ℝ × ℝ) :=
  g.links.filterMap (renderLink g)

/-- The rendered node layer (insights-panel.tsx lines 1469-1504): one
circle per node, keyed by id and placed at the node's position. -/
def renderNodes (g : GraphData) : List (String × ℝ × ℝ) :=
  g.nodes.map (fun n => (n.id, n.x, n.y))

/-- Transcription of `handleNodeDrag` (insights-panel.tsx lines
1352-1368): the pointer-derived coordinate, applied to every node whose
id matches the dragged node, zeroing its velocity. `rectLeft`/`rectTop`
come from `getBoundingClientRect`, `zoom` and `pan` from the view
state. -/
def handleNodeDrag (g : GraphData) (node : Node) (clientX clientY rectLeft rectTop : ℝ)
    (zoom panX panY : ℝ) : GraphData :=
  let x := (clientX - rectLeft) / zoom - panX
  let y := (clientY - rectTop) / zoom - panY
  { g with nodes := g.nodes.map (fun n =>
      if n.id = node.id then { n with x := x, y := y, vx := 0, vy := 0 } else n) }

/-- The `mouseup` handler installed by the drag interaction
(insights-panel.tsx lines 1485-1488) only removes the event listeners:
it leaves the graph state untouched, so the next animation frame runs
the unmodified `simulate` tick on it. -/
def handleMouseUp (g : GraphData) : GraphData := g

/-- Transcription of `zoomIn` (insights-panel.tsx line 1378). -/
def zoomIn (z : ℝ) : ℝ := min (z * 1.2) 3

/-- Transcription of `zoomOut` (insights-panel.tsx line 1379). -/
def zoomOut (z : ℝ) : ℝ := max (z / 1.2) 0.5

/-- A raw node as delivered by the graph endpoint before normalisation:
every field may be absent. -/
structure RawNode where
  id : Option String
  label : Option String
  name : Option String
  size : Option ℝ
  color : Option String

/-- A raw link as delivered by the graph endpoint before
normalisation. -/
structure RawLink where
  source : String
  target : String
  weight : Option ℝ
  label : Option String

/-- The parsed JSON of the graph endpoint: the `nodes` and `links`
arrays may be missing. -/
structure RawGraphData where
  nodes : Option (List RawNode)
  links : Option (List RawLink)

/-- The palette of `getNodeColor` (insights-panel.tsx lines 1250-1262). -/
def nodeColors : List String :=
  ["#dc2626", "#f59e0b", "#10b981", "#3b82f6", "#8b5cf6", "#f97316", "#06b6d4", "#84cc16"]

/-- Transcription of `getNodeColor` (insights-panel.tsx lines
1250-1262); the index is always in range, so the `getD` default is
never used. -/
def getNodeColor (index : Nat) : String :=
  nodeColors.getD (index % nodeColors.length) ""

/-- One draw triple of `Math.random()` values consumed while
normalising the node at a given index: the draws used for `size`, `x`
and `y`. -/
structure Rand where
  size : ℝ
  x : ℝ
  y : ℝ

/-- Every component of every draw lies in the interval `[0, 1)`, as
`Math.random()` guarantees. -/
def RandOk (rnd : Nat → Rand) : Prop :=
  ∀ i, 0 ≤ (rnd i).size ∧ (rnd i).size < 1 ∧
       0 ≤ (rnd i).x ∧ (rnd i).x < 1 ∧
       0 ≤ (rnd i).y ∧ (rnd i).y < 1

/-- Normalisation of one raw node (insights-panel.tsx lines 1211-1220),
with the `Math.random()` draws supplied explicitly per index. -/
def processNode (rnd : Nat → Rand) (index : Nat) (node : RawNode) : Node :=
  { id := jsOrS node.id ("node-" ++ toString index),
    label := jsOrS node.label (jsOrS node.name ("Concept " ++ toString (index + 1))),
    size := jsOrN node.size ((rnd index).size * 20 + 10),
    color := jsOrS node.color (getNodeColor index),
    x := (rnd index).x * 400 + 100,
    y := (rnd index).y * 300 + 100,
    vx := 0,
    vy := 0 }

/-- `Array.prototype.map` with the element index, as used by the
normalisation code. -/
def mapWithIndex (f : Nat → α → β) : Nat → List α → List β
  | _, [] => []
  | i, a :: rest => f i a :: mapWithIndex f (i + 1) rest

/-- Normalisation of one raw link (insights-panel.tsx lines
1221-1226). -/
def processLink (link : RawLink) : Link :=
  { source := link.source,
    target := link.target,
    weight := jsOrN link.weight 1,
    label := jsOrS link.label "" }

/-- The `processedData` value built from well-formed raw data
(insights-panel.tsx lines 1210-1227). -/
def processGraph (rnd : Nat → Rand) (rawNodes : List RawNode) (rawLinks : List RawLink) :
    GraphData :=
  { nodes := mapWithIndex (processNode rnd) 0 rawNodes,
    links := rawLinks.map processLink }

/-- The observable outcome of the fetch inside `fetchGraphData`: either
the promise rejects with an error message, or a response arrives with
its `ok` flag, `statusText` and parsed JSON body. -/
inductive GraphFetchResult
  | failure (message : String)
  | response (ok : Bool) (statusText : String) (data : RawGraphData)

/-- Final state produced by `fetchGraphData`: the graph state after the
call, the `error` state, and the toasts issued. -/
structure GraphFetchOutcome where
  graphData : Option GraphData
  error : Option String
  toasts : List Toast

/-- The message of the `TypeError` thrown when `data.nodes.map` or
`data.links.map` is evaluated on a missing array (quotes around the
property name elided). -/
def undefinedMapMsg : String := "Cannot read properties of undefined (reading map)"

/-- The `catch` branch of `fetchGraphData` (insights-panel.tsx lines
1235-1244): the error message becomes the error state and a destructive
toast; `setGraphData` is never called, so the prior graph state
persists. -/
def graphErrorOutcome (prior : Option GraphData) (m : String) : GraphFetchOutcome :=
  { graphData := prior,
    error := some m,
    toasts := [⟨"Failed to load knowledge graph", m, "destructive"⟩] }

/-- Transcription of `fetchGraphData` (insights-panel.tsx lines
1193-1248), as a function of the graph state before the call, the
random draws and the fetch outcome. -/
def fetchGraphData (prior : Option GraphData) (rnd : Nat → Rand)
    (fr : GraphFetchResult) : GraphFetchOutcome :=
  match fr with
  | GraphFetchResult.failure m => graphErrorOutcome prior m
  | GraphFetchResult.response ok statusText data =>
    if ¬ ok then graphErrorOutcome prior ("Failed to fetch graph data: " ++ statusText)
    else
      match data.nodes, data.links with
      | none, _ => graphErrorOutcome prior undefinedMapMsg
      | some _, none => graphErrorOutcome prior undefinedMapMsg
      | some rawNodes, some rawLinks =>
        let processedData := processGraph rnd rawNodes rawLinks
        { graphData := some processedData,
          error := none,
          toasts := [⟨"Knowledge graph loaded",
            "Visualizing " ++ toString processedData.nodes.length ++ " concepts and " ++
              toString processedData.links.length ++ " connections.", "default"⟩] }

/-- The failure cases of a graph fetch: network error, non-success
response, or malformed data (missing `nodes` or `links` array). -/
def graphFetchFails (fr : GraphFetchResult) : Prop :=
  match fr with
  | GraphFetchResult.failure _ => True
  | GraphFetchResult.response ok _ data =>
    ok = false ∨ data.nodes = none ∨ data.links = none

end

end KnowledgeGraph

namespace KnowledgeGraph

noncomputable section

/-- A concrete node at the canvas center. -/
def exNodeA : Node := ⟨"a", "A", 10, "#dc2626", 300, 200, 0, 0⟩

/-- A concrete node half a unit to the right of the center. -/
def exNodeB : Node := ⟨"b", "B", 10, "#f59e0b", 300.5, 200, 0, 0⟩

/-- A two-node state whose nodes are at Euclidean distance 1/2. -/
def exState : GraphData := ⟨[exNodeA, exNodeB], []⟩

/-- A one-node state used to exercise the bounds invariant. -/
def boundsState : GraphData := ⟨[⟨"n", "N", 12, "#10b981", 550, 30, 4, -3⟩], []⟩

/-- A two-node state with an unresolved link (target id `z` absent). -/
def danglingState : GraphData :=
  ⟨[⟨"a", "A", 10, "#dc2626", 100, 100, 0, 0⟩, ⟨"b", "B", 10, "#f59e0b", 200, 200, 0, 0⟩],
   [⟨"a", "z", 1, ""⟩]⟩

/-- The unresolved link of `danglingState`. -/
def danglingLink : Link := ⟨"a", "z", 1, ""⟩

/-- A two-node state used to exercise dragging. -/
def dragState : GraphData :=
  ⟨[⟨"a", "A", 10, "#dc2626", 100, 100, 1, 2⟩, ⟨"b", "B", 10, "#f59e0b", 200, 200, 3, 4⟩],
   [⟨"a", "b", 1, ""⟩]⟩

/-- The graph state after dragging node `a` of `dragState` to client
coordinates (120, 50) with zoom 1 and pan (0, 0). -/
def dragStateAfter : GraphData := handleNodeDrag dragState ⟨"a", "A", 10, "#dc2626", 100, 100, 1, 2⟩ 120 50 0 0 1 0 0

/-- A previously loaded graph used to exercise fetch-failure behaviour. -/
def priorGraph : GraphData := ⟨[⟨"p", "P", 15, "#3b82f6", 250, 150, 0, 0⟩], []⟩

/-- A constant stream of `Math.random()` draws equal to 1/2. -/
def rndHalf : Nat → Rand := fun _ => ⟨0.5, 0.5, 0.5⟩

/-- A stream of draws whose `y` component is 0.95, pushing the initial
`y` position to 385. -/
def rndHigh : Nat → Rand := fun _ => ⟨0.5, 0.5, 0.95⟩

/-- A raw node with every field absent. -/
def rawEmptyNode : RawNode := ⟨none, none, none, none, none⟩

end

end KnowledgeGraph

namespace DocumentUpload

/-- A concrete PDF file. -/
def pdfA : JsFile := ⟨"alpha.pdf", 1000, "application/pdf"⟩

/-- Another concrete PDF file. -/
def pdfB : JsFile := ⟨"beta.pdf", 2000, "application/pdf"⟩

/-- A concrete non-PDF file. -/
def txtFile : JsFile := ⟨"notes.txt", 300, "text/plain"⟩

/-- The fetch outcome of a browser network error. -/
def netErrorFetch : FetchResult := FetchResult.failure "Failed to fetch"

/-- The fetch outcome of an HTTP 500 response. -/
def http500Fetch : FetchResult :=
  FetchResult.response false "Internal Server Error" (some "text/html") "" ⟨"", 0⟩

end DocumentUpload

namespace KnowledgeGraph

/-- Folding an accumulate-if step from an arbitrary start value equals the
start value plus the fold from zero. -/
theorem foldl_if_add {α M : Type*} [AddMonoid M] (f : α → M) (p : α → Prop)
    [DecidablePred p] :
    ∀ (l : List α) (init : M),
      l.foldl (fun v a => if p a then v + f a else v) init =
        init + l.foldl (fun v a => if p a then v + f a else v) 0
  | [], init => by simp
  | a :: l, init => by
    simp only [List.foldl_cons]
    rw [foldl_if_add f p l, foldl_if_add f p l (if p a then 0 + f a else 0)]
    by_cases h : p a <;> simp [h, add_assoc]

/-- The repulsion sum reads only node ids and positions, which the
centering phase preserves. -/
theorem repSum_centerPhase (dfix : ℝ → ℝ) (ns : List Node) (node : Node) :
    repSum dfix (centerPhase ns) (centerNode node) = repSum dfix ns node := by
  unfold repSum centerPhase
  rw [List.foldl_map]
  rfl

/-- The merged per-node loop of the source equals the specification's
separate centering phase followed by the repulsion phase. -/
theorem applyNodeForces_eq (ns : List Node) :
    applyNodeForces ns = repulsePhase codeDist (centerPhase ns) := by
  unfold applyNodeForces repulsePhase
  conv_rhs => rw [centerPhase, List.map_map]
  refine List.map_congr_left (fun node _ => ?_)
  show _ = repulseNode codeDist (centerPhase ns) (centerNode node)
  unfold repulseNode
  rw [repSum_centerPhase]
  have hshift := foldl_if_add (repTerm codeDist node) (fun other => node.id ≠ other.id) ns
    (node.vx + (centerX - node.x) * centerForce, node.vy + (centerY - node.y) * centerForce)
  simp only [hshift]
  have hsum : ns.foldl (fun v other => if node.id ≠ other.id then v + repTerm codeDist node other else v) 0
      = repSum codeDist ns node := rfl
  rw [hsum]
  ext <;> simp [centerNode, Prod.fst_add, Prod.snd_add]

/-- One source tick is exactly the five-step update with the source's
distance treatment. -/
theorem simulate_eq_codeTick (g : GraphData) : simulate g = codeTick g := by
  unfold simulate codeTick phasedTick
  rw [applyNodeForces_eq]

end KnowledgeGraph

namespace KnowledgeGraph

/-- The integration step clamps both coordinates into the canvas. -/
theorem integrate_bounds (n : Node) :
    20 ≤ (integrate n).x ∧ (integrate n).x ≤ 580 ∧
    20 ≤ (integrate n).y ∧ (integrate n).y ≤ 380 := by
  unfold integrate
  exact ⟨le_max_left _ _, max_le (by norm_num) (min_le_left _ _),
         le_max_left _ _, max_le (by norm_num) (min_le_left _ _)⟩

/-- After one tick every node position lies inside the canvas bounds. -/
theorem simulate_bounds (g : GraphData) :
    ∀ n ∈ (simulate g).nodes, 20 ≤ n.x ∧ n.x ≤ 580 ∧ 20 ≤ n.y ∧ n.y ≤ 380 := by
  intro n hn
  simp only [simulate] at hn
  rcases List.mem_map.1 hn with ⟨m, _, rfl⟩
  exact integrate_bounds m

end KnowledgeGraph

namespace KnowledgeGraph

/-- C2: for every node list and link list, after any positive number of
simulation ticks every node's position lies within the canvas bounds:
x in [20, 580] and y in [20, 380]. -/
theorem positions_within_bounds (g : GraphData) (k : ℕ) (hk : 1 ≤ k) :
    ∀ n ∈ (simulate^[k] g).nodes,
      20 ≤ n.x ∧ n.x ≤ 580 ∧ 20 ≤ n.y ∧ n.y ≤ 380 := by
  obtain ⟨m, rfl⟩ : ∃ m, k = m + 1 := ⟨k - 1, by omega⟩
  rw [Function.iterate_succ_apply']
  exact simulate_bounds _

/-- Witness for C2 at a concrete one-node state and one tick. -/
theorem positions_within_bounds_witness :
    1 ≤ 1 ∧ ∀ n ∈ (simulate^[1] boundsState).nodes,
      20 ≤ n.x ∧ n.x ≤ 580 ∧ 20 ≤ n.y ∧ n.y ≤ 380 :=
  ⟨le_refl 1, positions_within_bounds boundsState 1 (le_refl 1)⟩

/-- C6: zoomIn multiplies the zoom factor by 1.2 clamped above at 3.0 and
zoomOut divides it by 1.2 clamped below at 0.5, so from any zoom in
[0.5, 3.0] both operations stay in [0.5, 3.0]; and 5 successive zoomIn
calls from 1.0 yield min(1.0 * 1.2 ^ 5, 3.0). -/
theorem zoom_clamped_and_five_steps :
    (∀ z : ℝ, 0.5 ≤ z → z ≤ 3 →
      0.5 ≤ zoomIn z ∧ zoomIn z ≤ 3 ∧ 0.5 ≤ zoomOut z ∧ zoomOut z ≤ 3) ∧
    zoomIn^[5] (1 : ℝ) = min (1 * 1.2 ^ 5) 3 := by
  constructor
  · intro z h1 h2
    refine ⟨le_min (by linarith) (by norm_num), min_le_right _ _,
            le_max_right _ _,
            max_le (by rw [div_le_iff₀ (by norm_num : (0:ℝ) < 1.2)]; linarith) (by norm_num)⟩
  · have h5 : zoomIn^[5] (1 : ℝ) = zoomIn (zoomIn (zoomIn (zoomIn (zoomIn 1)))) := by
      simp [Function.iterate_succ', Function.iterate_zero]
    rw [h5]
    norm_num [zoomIn, min_def]

/-- Witness for C6 at zoom factor 1. -/
theorem zoom_clamped_witness :
    0.5 ≤ zoomIn 1 ∧ zoomIn 1 ≤ 3 ∧ 0.5 ≤ zoomOut 1 ∧ zoomOut 1 ≤ 3 :=
  zoom_clamped_and_five_steps.1 1 (by norm_num) (by norm_num)

end KnowledgeGraph

namespace KnowledgeGraph

/-- Every node produced by the force loop keeps the id and position of a
source node. -/
theorem mem_applyNodeForces (ns : List Node) (n : Node) (hn : n ∈ applyNodeForces ns) :
    ∃ m ∈ ns, n.id = m.id ∧ n.x = m.x ∧ n.y = m.y := by
  unfold applyNodeForces at hn
  rcases List.mem_map.1 hn with ⟨m, hm, rfl⟩
  exact ⟨m, hm, rfl, rfl, rfl⟩

/-- An id absent from the node list is still absent after the force
loop. -/
theorem applyNodeForces_find?_eq_none (ns : List Node) (s : String)
    (h : ns.find? (fun n => n.id == s) = none) :
    (applyNodeForces ns).find? (fun n => n.id == s) = none := by
  rw [List.find?_eq_none] at h ⊢
  intro x hx
  rcases mem_applyNodeForces ns x hx with ⟨m, hm, hid, -, -⟩
  simpa [hid] using h m hm

/-- A link with an unresolved endpoint leaves the node list unchanged. -/
theorem applyLink_unresolved (ns : List Node) (l : Link)
    (h : ns.find? (fun n => n.id == l.source) = none ∨
         ns.find? (fun n => n.id == l.target) = none) :
    applyLink ns l = ns := by
  unfold applyLink
  rcases h with h | h
  · rw [h]
  · rw [h]
    cases ns.find? (fun n => n.id == l.source) <;> rfl

end KnowledgeGraph

namespace KnowledgeGraph

/-- C3: a link whose source or target id does not resolve to a node in
the current node set is a no-op: the tick applies no force for it and
produces the same nodes as without it, rendering skips exactly that
link, and the nodes are still rendered unchanged. -/
theorem unresolved_link_noop (g : GraphData) (l : Link) (rest : List Link)
    (h : g.nodes.find? (fun n => n.id == l.source) = none ∨
         g.nodes.find? (fun n => n.id == l.target) = none) :
    applyLink g.nodes l = g.nodes ∧
    (simulate { g with links := l :: rest }).nodes = (simulate { g with links := rest }).nodes ∧
    renderLinks { g with links := l :: rest } = renderLinks { g with links := rest } ∧
    renderNodes { g with links := l :: rest } = renderNodes { g with links := rest } := by
  have h' : (applyNodeForces g.nodes).find? (fun n => n.id == l.source) = none ∨
      (applyNodeForces g.nodes).find? (fun n => n.id == l.target) = none := by
    rcases h with h | h
    · exact Or.inl (applyNodeForces_find?_eq_none _ _ h)
    · exact Or.inr (applyNodeForces_find?_eq_none _ _ h)
  refine ⟨applyLink_unresolved _ _ h, ?_, ?_, rfl⟩
  · simp only [simulate, applyLinkForces, List.foldl_cons]
    rw [applyLink_unresolved _ _ h']
  · have hnone : renderLink { g with links := l :: rest } l = none := by
      unfold renderLink
      rcases h with h | h
      · rw [h]
      · rw [h]
        cases (g.nodes.find? (fun n => n.id == l.source)) <;> rfl
    simp only [renderLinks, List.filterMap_cons, hnone]
    rfl

/-- Witness for C3: nodes a and b with a link from a to the missing id
z. -/
theorem unresolved_link_noop_witness :
    (danglingState.nodes.find? (fun n => n.id == danglingLink.source) = none ∨
     danglingState.nodes.find? (fun n => n.id == danglingLink.target) = none) ∧
    (applyLink danglingState.nodes danglingLink = danglingState.nodes ∧
     (simulate { danglingState with links := danglingLink :: [] }).nodes =
       (simulate { danglingState with links := [] }).nodes ∧
     renderLinks { danglingState with links := danglingLink :: [] } =
       renderLinks { danglingState with links := [] } ∧
     renderNodes { danglingState with links := danglingLink :: [] } =
       renderNodes { danglingState with links := [] }) := by
  have h : danglingState.nodes.find? (fun n => n.id == danglingLink.target) = none := by
    simp [danglingState, danglingLink]
  exact ⟨Or.inr h, unresolved_link_noop danglingState danglingLink [] (Or.inr h)⟩

end KnowledgeGraph

namespace DocumentUpload

/-- C5: if filtering the submitted batch to files of declared media type
application/pdf yields the empty set, the submission is rejected with
the No-valid-files toast, no upload request is issued, and the
pending-file list is not modified. -/
theorem no_valid_files_rejects (selectedFiles : List JsFile)
    (h : selectedFiles.filter (fun f => f.type = "application/pdf") = []) :
    (handleFiles selectedFiles).newFiles = none ∧
    (handleFiles selectedFiles).uploadRequest = none ∧
    Toast.mk "No valid files" "Please select PDF files to upload." "destructive" ∈
      (handleFiles selectedFiles).toasts := by
  unfold handleFiles
  simp [h]

/-- Witness for C5 at a batch consisting of one plain-text file. -/
theorem no_valid_files_rejects_witness :
    [txtFile].filter (fun f => f.type = "application/pdf") = [] ∧
    ((handleFiles [txtFile]).newFiles = none ∧
     (handleFiles [txtFile]).uploadRequest = none ∧
     Toast.mk "No valid files" "Please select PDF files to upload." "destructive" ∈
       (handleFiles [txtFile]).toasts) := by
  have h : [txtFile].filter (fun f => f.type = "application/pdf") = [] := by decide
  exact ⟨h, no_valid_files_rejects [txtFile] h⟩

end DocumentUpload

namespace PdfViewer

/-- C7: the text-selection callback is invoked with the trimmed selected
text and the document name exactly when the viewer reports a
SELECTION_END event whose payload is non-empty after trimming; events
with an absent, empty or whitespace-only payload produce no callback. -/
theorem selection_callback_iff (d : String) (e : ViewerEvent) (out : String × String) :
    handleViewerEvent d e = some out ↔
      (e.type = "SELECTION_END" ∧ ∃ t, e.text = some t ∧ jsTrim t ≠ "" ∧ out = (jsTrim t, d)) := by
  unfold handleViewerEvent
  by_cases htype : e.type = "SELECTION_END"
  · simp only [htype, if_true]
    cases htext : e.text with
    | none => simp
    | some t =>
      by_cases h0 : t = ""
      · subst h0
        have : jsTrim "" = "" := rfl
        simp [this]
      · simp only [h0, if_true, ne_eq, not_false_iff]
        by_cases h1 : jsTrim t = ""
        · simp [h1]
        · simp only [h1, if_true, ne_eq, not_false_iff, if_neg, Option.some.injEq]
          constructor
          · rintro rfl
            exact ⟨trivial, t, rfl, h1, rfl⟩
          · rintro ⟨-, t', ht', -, rfl⟩
            cases ht'
            rfl
  · simp [htype]

end PdfViewer

namespace KnowledgeGraph

/-- C8: if the graph fetch fails (network error, non-success response) or
returns malformed data (missing nodes or links array), a graph-specific
error is surfaced (error state plus destructive toast) and the
previously loaded graph data is left untouched. -/
theorem graph_fetch_failure_preserves_prior (prior : Option GraphData) (rnd : Nat → Rand)
    (fr : GraphFetchResult) (h : graphFetchFails fr) :
    (fetchGraphData prior rnd fr).graphData = prior ∧
    ∃ m, (fetchGraphData prior rnd fr).error = some m ∧
      Toast.mk "Failed to load knowledge graph" m "destructive" ∈
        (fetchGraphData prior rnd fr).toasts := by
  cases fr with
  | failure m =>
    exact ⟨rfl, m, rfl, List.mem_singleton.2 rfl⟩
  | response ok statusText data =>
    cases ok with
    | false =>
      refine ⟨?_, "Failed to fetch graph data: " ++ statusText, ?_, ?_⟩ <;>
        simp [fetchGraphData, graphErrorOutcome]
    | true =>
      rcases h with h | h | h
      · exact absurd h (by simp)
      · obtain ⟨ls⟩ := data
        cases ls with
        | none =>
          refine ⟨?_, undefinedMapMsg, ?_, ?_⟩ <;> simp [fetchGraphData, graphErrorOutcome]
        | some rawNodes => simp at h
      · obtain ⟨ns, ls⟩ := data
        simp only at h
        subst h
        cases ns with
        | none =>
          refine ⟨?_, undefinedMapMsg, ?_, ?_⟩ <;> simp [fetchGraphData, graphErrorOutcome]
        | some rawNodes =>
          refine ⟨?_, undefinedMapMsg, ?_, ?_⟩ <;> simp [fetchGraphData, graphErrorOutcome]

/-- Witness for C8: a network error with a previously loaded graph. -/
theorem graph_fetch_failure_preserves_prior_witness :
    graphFetchFails (GraphFetchResult.failure "Failed to fetch") ∧
    ((fetchGraphData (some priorGraph) rndHalf (GraphFetchResult.failure "Failed to fetch")).graphData
        = some priorGraph ∧
     ∃ m, (fetchGraphData (some priorGraph) rndHalf (GraphFetchResult.failure "Failed to fetch")).error
           = some m ∧
       Toast.mk "Failed to load knowledge graph" m "destructive" ∈
         (fetchGraphData (some priorGraph) rndHalf (GraphFetchResult.failure "Failed to fetch")).toasts) :=
  ⟨trivial, graph_fetch_failure_preserves_prior (some priorGraph) rndHalf
    (GraphFetchResult.failure "Failed to fetch") trivial⟩

end KnowledgeGraph

namespace DocumentUpload

/-- Counterexample to C4 as stated: on the canonical browser network
error ("Failed to fetch") the batch does not transition to error at
all — demo mode marks every file success and reports no error. -/
theorem upload_network_error_is_demo_success :
    (uploadFiles [pdfA] netErrorFetch "0").fileStatus = DocStatus.success ∧
    (uploadFiles [pdfA] netErrorFetch "0").fileStatus ≠ DocStatus.error ∧
    (uploadFiles [pdfA] netErrorFetch "0").error = none := by
  refine ⟨?_, ?_, ?_⟩ <;> decide

/-- C4 amended: on a non-success HTTP response whose derived message
does not match the demo-mode markers, every file of the batch
transitions to error uniformly and the failure reason is surfaced in
the error state and the destructive toast; a fetch failure whose
message does match the demo-mode detection instead transitions the
batch to success. -/
theorem upload_http_error_all_error (files : List JsFile) (statusText now : String)
    (contentType : Option String) (bodyText : String) (json : UploadResultJson)
    (h : demoCheck ("Upload failed: " ++ statusText) = false) :
    uploadFiles files (FetchResult.response false statusText contentType bodyText json) now =
      { fileStatus := DocStatus.error,
        error := some ("Upload failed: " ++ statusText),
        toasts := [⟨"Upload failed", "Upload failed: " ++ statusText, "destructive"⟩],
        completed := none } ∧
    ∀ msg, demoCheck msg = true →
      (uploadFiles files (FetchResult.failure msg) now).fileStatus = DocStatus.success := by
  constructor
  · simp [uploadFiles, innerTry, withDemo, h]
  · intro msg hm
    simp [uploadFiles, innerTry, withDemo, hm]

/-- Witness for C4 at an HTTP 500 response for a two-file batch. -/
theorem upload_http_error_all_error_witness :
    demoCheck ("Upload failed: " ++ "Internal Server Error") = false ∧
    (uploadFiles [pdfA, pdfB]
        (FetchResult.response false "Internal Server Error" (some "text/html") "" ⟨"", 0⟩) "0" =
      { fileStatus := DocStatus.error,
        error := some ("Upload failed: " ++ "Internal Server Error"),
        toasts := [⟨"Upload failed", "Upload failed: " ++ "Internal Server Error", "destructive"⟩],
        completed := none } ∧
     ∀ msg, demoCheck msg = true →
       (uploadFiles [pdfA, pdfB] (FetchResult.failure msg) "0").fileStatus = DocStatus.success) := by
  have h : demoCheck ("Upload failed: " ++ "Internal Server Error") = false := by decide
  exact ⟨h, upload_http_error_all_error [pdfA, pdfB] "Internal Server Error" "0"
    (some "text/html") "" ⟨"", 0⟩ h⟩

end DocumentUpload

namespace KnowledgeGraph

/-- C9: each pointer-move event during a drag sets the position of
exactly the nodes carrying the dragged id to the pointer-derived
coordinate and their velocity to zero, leaves every other node and all
links unchanged, and after pointer release (which only removes the
event listeners) the next tick is the unmodified five-step force
update, so the simulation resumes applying forces to the dragged
node. -/
theorem drag_updates_only_target (g g' : GraphData) (node : Node)
    (clientX clientY rectLeft rectTop zoom panX panY : ℝ)
    (hg : g' = handleNodeDrag g node clientX clientY rectLeft rectTop zoom panX panY) :
    g'.links = g.links ∧
    (∀ i, ∀ hi : i < g.nodes.length,
      (g.nodes[i].id = node.id →
        g'.nodes[i]? = some { g.nodes[i] with
          x := (clientX - rectLeft) / zoom - panX,
          y := (clientY - rectTop) / zoom - panY,
          vx := 0, vy := 0 }) ∧
      (g.nodes[i].id ≠ node.id → g'.nodes[i]? = some (g.nodes[i]))) ∧
    simulate (handleMouseUp g') = codeTick g' := by
  subst hg
  refine ⟨rfl, ?_, simulate_eq_codeTick _⟩
  intro i hi
  have hget : (handleNodeDrag g node clientX clientY rectLeft rectTop zoom panX panY).nodes[i]?
      = (g.nodes[i]?).map (fun n =>
          if n.id = node.id then { n with
            x := (clientX - rectLeft) / zoom - panX,
            y := (clientY - rectTop) / zoom - panY,
            vx := 0, vy := 0 } else n) := by
    unfold handleNodeDrag
    exact List.getElem?_map ..
  rw [hget, List.getElem?_eq_getElem hi]
  constructor
  · intro hid
    simp [hid]
  · intro hid
    simp [hid]

/-- Witness for C9: dragging node a of a two-node state to client
coordinates (120, 50). -/
theorem drag_updates_only_target_witness :
    dragStateAfter = handleNodeDrag dragState ⟨"a", "A", 10, "#dc2626", 100, 100, 1, 2⟩ 120 50 0 0 1 0 0 ∧
    (dragStateAfter.links = dragState.links ∧
     (∀ i, ∀ hi : i < dragState.nodes.length,
       (dragState.nodes[i].id = "a" →
         dragStateAfter.nodes[i]? = some { dragState.nodes[i] with
           x := (120 - 0) / 1 - 0, y := (50 - 0) / 1 - 0, vx := 0, vy := 0 }) ∧
       (dragState.nodes[i].id ≠ "a" → dragStateAfter.nodes[i]? = some (dragState.nodes[i]))) ∧
     simulate (handleMouseUp dragStateAfter) = codeTick dragStateAfter) :=
  ⟨rfl, drag_updates_only_target dragState dragStateAfter
    ⟨"a", "A", 10, "#dc2626", 100, 100, 1, 2⟩ 120 50 0 0 1 0 0 rfl⟩

end KnowledgeGraph

namespace KnowledgeGraph

/-- Every element of an indexed map is the image of some index and
element. -/
theorem mem_mapWithIndex {α β : Type*} {f : Nat → α → β} :
    ∀ (l : List α) (start : Nat) (b : β), b ∈ mapWithIndex f start l → ∃ i a, b = f i a
  | [], _, b => by simp [mapWithIndex]
  | a :: rest, start, b => by
    intro hb
    simp only [mapWithIndex, List.mem_cons] at hb
    rcases hb with rfl | hb
    · exact ⟨start, a, rfl⟩
    · exact mem_mapWithIndex rest (start + 1) b hb

/-- A JavaScript string default with a non-empty fallback is
non-empty. -/
theorem jsOrS_ne_empty (x : Option String) (d : String) (hd : d ≠ "") :
    jsOrS x d ≠ "" := by
  unfold jsOrS
  cases x with
  | none => exact hd
  | some s =>
    by_cases hs : s = ""
    · simp [hs, hd]
    · simp [hs]

/-- Appending to the non-empty literal prefix keeps a string
non-empty. -/
theorem prefix_append_ne_empty (p s : String) (hp : p ≠ "") : p ++ s ≠ "" := by
  intro hcon
  have hlen := congrArg String.length hcon
  rw [String.length_append] at hlen
  have hp' : p.length ≠ 0 := fun h0 => hp (String.ext (List.length_eq_zero.1 h0))
  simp at hlen
  omega

/-- Counterexample to C10 as stated: with an admissible draw of 0.95 for
the y coordinate, the normalised node starts at y = 385, outside the
clamp region [20, 380], so the bounds invariant does not already hold
before the first tick. -/
theorem initial_position_outside_clamp :
    ¬ (∀ n ∈ (processGraph rndHigh [rawEmptyNode] []).nodes, 20 ≤ n.y ∧ n.y ≤ 380) := by
  intro h
  have hy := h (processNode rndHigh 0 rawEmptyNode) (by simp [processGraph, mapWithIndex])
  have : (processNode rndHigh 0 rawEmptyNode).y = 385 := by
    simp [processNode, rndHigh]
    norm_num
  rw [this] at hy
  norm_num at hy

/-- C10 amended: after every successful graph fetch every normalised
node has a non-empty id and label, zero velocity, and an initial
position with x in [100, 500) and y in [100, 400); the x range lies
inside the clamp region [20, 580] but the y range is not contained in
[20, 380] (y may reach up to 400), so the bounds invariant need not
hold before the first tick; and every link keeps its endpoints and gets
weight defaulting to 1 and label defaulting to the empty string. -/
theorem normalized_graph_state (rnd : Nat → Rand) (rawNodes : List RawNode)
    (rawLinks : List RawLink) (h : RandOk rnd) :
    (∀ n ∈ (processGraph rnd rawNodes rawLinks).nodes,
      n.vx = 0 ∧ n.vy = 0 ∧ n.id ≠ "" ∧ n.label ≠ "" ∧
      100 ≤ n.x ∧ n.x < 500 ∧ 100 ≤ n.y ∧ n.y < 400) ∧
    (processGraph rnd rawNodes rawLinks).links = rawLinks.map processLink := by
  refine ⟨?_, rfl⟩
  intro n hn
  obtain ⟨i, a, rfl⟩ := mem_mapWithIndex rawNodes 0 n hn
  obtain ⟨hs0, hs1, hx0, hx1, hy0, hy1⟩ := h i
  refine ⟨rfl, rfl, ?_, ?_, ?_, ?_, ?_, ?_⟩
  · exact jsOrS_ne_empty _ _ (prefix_append_ne_empty "node-" _ (by decide))
  · exact jsOrS_ne_empty _ _ (jsOrS_ne_empty _ _ (prefix_append_ne_empty "Concept " _ (by decide)))
  · show 100 ≤ (rnd i).x * 400 + 100
    nlinarith
  · show (rnd i).x * 400 + 100 < 500
    nlinarith
  · show 100 ≤ (rnd i).y * 300 + 100
    nlinarith
  · show (rnd i).y * 300 + 100 < 400
    nlinarith

/-- Witness for C10 at the constant draw stream 1/2 and one empty raw
node. -/
theorem normalized_graph_state_witness :
    RandOk rndHalf ∧
    ((∀ n ∈ (processGraph rndHalf [rawEmptyNode] []).nodes,
       n.vx = 0 ∧ n.vy = 0 ∧ n.id ≠ "" ∧ n.label ≠ "" ∧
       100 ≤ n.x ∧ n.x < 500 ∧ 100 ≤ n.y ∧ n.y < 400) ∧
     (processGraph rndHalf [rawEmptyNode] []).links = List.map processLink []) := by
  have h : RandOk rndHalf := by
    intro i
    refine ⟨?_, ?_, ?_, ?_, ?_, ?_⟩ <;> norm_num [rndHalf]
  exact ⟨h, normalized_graph_state rndHalf [rawEmptyNode] [] h⟩

end KnowledgeGraph

namespace KnowledgeGraph

/-- Concrete evaluation of one source tick on `exState`: the repulsion
between the nodes at distance 1/2 uses the raw distance, giving force
500 / (1/2)^2 = 2000. -/
theorem simulate_eval_exState :
    ((simulate exState).nodes.map Node.vx) = [-1800, 1799.9955] := by
  have hab : ("a" : String) = "b" ↔ False := by simp
  have hba : ("b" : String) = "a" ↔ False := by simp
  have h4 : Real.sqrt 4 = 2 := by
    rw [show (4 : ℝ) = 2 ^ 2 by norm_num, Real.sqrt_sq (by norm_num : (0:ℝ) ≤ 2)]
  simp only [simulate, exState, exNodeA, exNodeB, applyNodeForces, applyLinkForces,
    List.foldl_cons, List.foldl_nil, List.map_cons, List.map_nil, repTerm, codeDist, jsOr,
    integrate, centerX, centerY, centerForce]
  norm_num [hab, hba, h4, Prod.ext_iff]

/-- Concrete evaluation of the claimed five-step tick on `exState`: the
distance 1/2 is raised to the minimum 1, giving force 500. -/
theorem specTick_eval_exState :
    ((specTick exState).nodes.map Node.vx) = [-225, 224.9955] := by
  have hab : ("a" : String) = "b" ↔ False := by simp
  have hba : ("b" : String) = "a" ↔ False := by simp
  have h4 : Real.sqrt 4 = 2 := by
    rw [show (4 : ℝ) = 2 ^ 2 by norm_num, Real.sqrt_sq (by norm_num : (0:ℝ) ≤ 2)]
  simp only [specTick, phasedTick, exState, exNodeA, exNodeB, centerPhase, centerNode,
    repulsePhase, repulseNode, repSum, applyLinkForces,
    List.foldl_cons, List.foldl_nil, List.map_cons, List.map_nil, repTerm, specDist,
    integrate, centerX, centerY, centerForce]
  norm_num [hab, hba, h4, Prod.ext_iff, max_def]

/-- Counterexample to C1 as stated: on two nodes at Euclidean distance
1/2 the source tick and the claimed five-step update (repulsion
distance taken with minimum 1) produce different states: the source
divides by the raw distance 1/2 and yields velocity -1800 for the first
node, the claimed update yields -225. -/
theorem simulate_ne_specTick : simulate exState ≠ specTick exState := by
  intro h
  have h2 := congrArg (fun g => g.nodes.map Node.vx) h
  simp only [simulate_eval_exState, specTick_eval_exState] at h2
  norm_num at h2

/-- C1 amended: one simulation tick computes exactly the five-step
update — centering 0.01 toward (300, 200), pairwise repulsion 500/d²
along the separation vector, spring force (d - 100) * 0.1 applied
equally and oppositely to the resolved endpoints of each link, then
damping 0.9, integration and the clamp to [20, 580] x [20, 380] — with
the repulsion distance d replaced by 1 only when it is exactly 0 (the
JavaScript idiom sqrt(...) || 1), not raised to a minimum of 1. -/
theorem simulate_is_five_step_update (g : GraphData) : simulate g = codeTick g :=
  simulate_eq_codeTick g

end KnowledgeGraph
